import Mathlib

/-!
Verification of the word-embedding storage notebooks.

The repository is a set of Jupyter notebooks (LevelDB, MongoDB, MySQL,
PostgreSQL, and two SQLite variants) that generate random embedding
vectors, serialize them with a `numpy.save`-based codec
(`adapt_array` / `convert_array`), write them to a storage backend,
read them back, and time the two phases over a sweep of dataset sizes.

The development below embeds:
  * the vector codec (`adapt_array` / `convert_array`),
  * the record generator (`embeddings`),
  * the sweep harness (reset, write phase, read phase) of each notebook
    variant,
and proves the properties claimed in the specification.

A vector element is modelled as the 64-bit pattern of one float64 value
(a natural number below 2^64): `numpy.save` writes exactly those eight
bytes per element and `numpy.load` reads them back, so byte-level
round-tripping is bit-exact element equality.
-/

namespace WordEmbeddingStorage

/-- A vector is the ordered list of the 64-bit patterns of its float64
elements (cf. `numpy.random.rand(dim)` output serialized by `numpy.save`). -/
abbrev Vec : Type := List Nat

/-- Little-endian byte string of a natural number, `k` bytes long. -/
def bytesOfNat : Nat → Nat → List Nat
  | 0, _ => []
  | k + 1, x => x % 256 :: bytesOfNat k (x / 256)

/-- Natural number denoted by a little-endian byte string. -/
def natOfBytes : List Nat → Nat
  | [] => 0
  | b :: bs => b + 256 * natOfBytes bs

/-- Read `n` consecutive 8-byte little-endian words from a byte string. -/
def readElems : Nat → List Nat → List Nat
  | 0, _ => []
  | k + 1, bs => natOfBytes (bs.take 8) :: readElems k (bs.drop 8)

/-- Magic-and-version prefix of the serialized blob: the six magic bytes
`\x93NUMPY` followed by format version 1.0, as written by `numpy.save`. -/
def NPY_MAGIC : List Nat := [0x93, 0x4E, 0x55, 0x4D, 0x50, 0x59, 1, 0]

/-- Failure modes of `convert_array` (the spec's `DecodingError`). -/
inductive DecodingError where
  | badMagic
  | truncatedCount
  | payloadSizeMismatch
deriving DecidableEq

/-- `adapt_array` of the notebooks: serialize a vector to a blob via
`numpy.save` into a `BytesIO` buffer and return the buffered bytes.

Modelled from the spec: the byte layout itself is produced by the external
library call `numpy.save`, whose source is not part of this repository; the
spec describes it as a deterministic, self-describing layout carrying the
element count and fixed-width little-endian float64 words, which is the NPY
layout modelled here: magic/version prefix, element count, then one 8-byte
little-endian word per element. -/
def adapt_array (v : Vec) : List Nat :=
  NPY_MAGIC ++ bytesOfNat 8 v.length ++ (v.map (bytesOfNat 8)).flatten

/-- `convert_array` of the notebooks: deserialize a blob back to a vector
via `numpy.load` on a `BytesIO` buffer.

Modelled from the spec: `numpy.load` is an external library call; per the
spec it reconstructs the exact element sequence from the self-describing
layout and fails with a `DecodingError` on a truncated or malformed blob or
when the declared element count is inconsistent with the payload size. -/
def convert_array (blob : List Nat) : Except DecodingError Vec :=
  if blob.take 8 = NPY_MAGIC then
    if 16 ≤ blob.length then
      if (blob.drop 16).length = 8 * natOfBytes ((blob.drop 8).take 8) then
        Except.ok (readElems (natOfBytes ((blob.drop 8).take 8)) (blob.drop 16))
      else Except.error DecodingError.payloadSizeMismatch
    else Except.error DecodingError.truncatedCount
  else Except.error DecodingError.badMagic

/-- Structural well-formedness of a blob, stated independently of
`convert_array`: intact magic/version prefix, complete element-count field,
and a payload whose size matches the declared element count. -/
def WellFormedNPY (blob : List Nat) : Prop :=
  blob.take 8 = NPY_MAGIC ∧ 16 ≤ blob.length ∧
    (blob.drop 16).length = 8 * natOfBytes ((blob.drop 8).take 8)

instance (blob : List Nat) : Decidable (WellFormedNPY blob) := by
  unfold WellFormedNPY
  infer_instance

/-- True exactly when `convert_array` fails on the blob. -/
def decodeRejects (blob : List Nat) : Bool :=
  match convert_array blob with
  | Except.error _ => true
  | Except.ok _ => false

/-- Oracle modelling the global numpy random state: `draw idx j` is the bit
pattern sampled for position `j` of the vector yielded at loop index `idx`.
The harness never constraints the values, only the shape of each sample. -/
def drawZero : Nat → Nat → Nat := fun _ _ => 0

/-- A second concrete oracle, used to witness independence results. -/
def drawOne : Nat → Nat → Nat := fun _ _ => 1

/-- One call of `numpy.random.rand(dim)`: a freshly sampled vector of exactly
`dim` elements. The values come from the external library's random state,
modelled by the oracle `draw`; the only structural fact the notebooks rely on
is that the sample has length `dim`. -/
def numpy_random_rand (draw : Nat → Nat → Nat) (idx dim : Nat) : Vec :=
  (List.range dim).map (draw idx)

/-- The loop body of the generator `embeddings` (part_000 lines 42-49):
`idx = 0; while idx < n: yield (str(idx), numpy.random.rand(dim)); idx += 1`.
`n` is an arbitrary Python integer, so it is modelled as `Int`. -/
def embeddingsFrom (draw : Nat → Nat → Nat) (n : Int) (dim idx : Nat) :
    List (String × Vec) :=
  if h : (idx : Int) < n then
    (toString idx, numpy_random_rand draw idx dim) :: embeddingsFrom draw n dim (idx + 1)
  else []
termination_by (n - idx).toNat
decreasing_by omega

/-- `embeddings(n, dim)` of the notebooks, started at `idx = 0`. The Python
defaults are `n=1000, dim=300` (LevelDB, MongoDB, MySQL and in-memory SQLite
variants) and `n=10, dim=300` (PostgreSQL and on-disk SQLite variants). -/
def embeddings (draw : Nat → Nat → Nat) (n : Int) (dim : Nat) :
    List (String × Vec) :=
  embeddingsFrom draw n dim 0

/-- Backend state: the sequence of (key, blob) records currently stored, in
insertion order. None of the notebooks declares a uniqueness constraint on
keys, so the state is a list rather than a map. -/
abbrev Store := List (String × List Nat)

/-- The reset step at the top of every sweep iteration: `shutil.rmtree` plus
re-creation for LevelDB, `delete_many({})` for MongoDB, `DROP TABLE` plus
`CREATE TABLE` for the SQL variants. All of them leave an empty storage
area. -/
def resetStore (_st : Store) : Store := []

/-- One `put` of the writing phase (`connection.put`, `insert_one`, or an SQL
`INSERT`): stores the blob under the key. -/
def putRecord (st : Store) (key : String) (blob : List Nat) : Store :=
  st ++ [(key, blob)]

/-- The writing phase of one sweep iteration: encode each generated record
with `adapt_array` and issue one put per record, in generation order. -/
def writePhase (recs : List (String × Vec)) (st : Store) : Store :=
  recs.foldl (fun s r => putRecord s r.1 (adapt_array r.2)) st

/-- One sweep iteration acting on the backend state: reset, then write
`embeddings(c)`. The reading phase only issues gets and never changes the
state. -/
def sweepIteration (draw : Nat → Nat → Nat) (dim c : Nat) (st : Store) : Store :=
  writePhase (embeddings draw (c : Int) dim) (resetStore st)

/-- A whole sweep: one iteration per entry of `counts`, in order. -/
def sweepRun (draw : Nat → Nat → Nat) (dim : Nat) (counts : List Nat)
    (st : Store) : Store :=
  counts.foldl (fun s c => sweepIteration draw dim c s) st

/-- Keys put by the writing phase of a sweep iteration of size `c`: every
variant writes `for key, emb in embeddings(c)`. -/
def sweepWriteKeys (draw : Nat → Nat → Nat) (c : Nat) : List String :=
  (embeddings draw (c : Int) 300).map Prod.fst

/-- Keys read back by the LevelDB sweep (part_000 lines 188-191):
`for key, _ in embeddings(c)`. -/
def leveldbSweepReadKeys (draw : Nat → Nat → Nat) (c : Nat) : List String :=
  (embeddings draw (c : Int) 300).map Prod.fst

/-- Keys read back by the MongoDB sweep: `for key, _ in embeddings(c)`. -/
def mongoSweepReadKeys (draw : Nat → Nat → Nat) (c : Nat) : List String :=
  (embeddings draw (c : Int) 300).map Prod.fst

/-- Keys read back by the MySQL sweep: `for key, emb in embeddings(c)`. -/
def mysqlSweepReadKeys (draw : Nat → Nat → Nat) (c : Nat) : List String :=
  (embeddings draw (c : Int) 300).map Prod.fst

/-- Keys read back by the in-memory SQLite sweep: the loop is
`for key, emb in embeddings():` with NO size argument, so it iterates the
generator at its default `n=1000` whatever the current sweep size is. -/
def sqliteMemorySweepReadKeys (draw : Nat → Nat → Nat) (_c : Nat) :
    List String :=
  (embeddings draw (1000 : Int) 300).map Prod.fst

/-- Python runtime values a decoded result can be observed as. -/
inductive PyVal where
  | ndarray (v : Vec)
  | pyNone
deriving DecidableEq

/-- The check `type(x) is numpy.ndarray`. -/
def type_is_ndarray : PyVal → Bool
  | PyVal.ndarray _ => true
  | PyVal.pyNone => false

/-- Body of the LevelDB sweep read loop on one fetched blob (part_000 lines
188-191): `emb = convert_array(arr); assert(type(emb) is numpy.ndarray)`.
Returns true exactly when the iteration completes without aborting: a blob
that fails to decode raises (aborts), and a decoded value aborts only if the
type assertion fails. The MongoDB sweep read loop is identical. -/
def leveldbReadStep (blob : List Nat) : Bool :=
  match convert_array blob with
  | Except.ok emb => type_is_ndarray (PyVal.ndarray emb)
  | Except.error _ => false

/-- Body of the MySQL sweep read loop on one fetched blob:
`arr = convert_array(data[0])` with no assertion at all; the iteration
aborts only if decoding itself raises. -/
def mysqlReadStep (blob : List Nat) : Bool :=
  match convert_array blob with
  | Except.ok _ => true
  | Except.error _ => false

/-- Body of the PostgreSQL sweep read loop on one fetched row:
`data = cursor.fetchone()` and nothing else - no decode and no assertion,
so every fetched row passes. -/
def postgresSweepReadStep (_row : List Nat) : Bool := true

/-- Errors of the abstract StorageBackend contract. -/
inductive StoreError where
  | notFoundError
deriving DecidableEq

/-- First stored blob under the key, if any. -/
def lookupStore (st : Store) (key : String) : Option (List Nat) :=
  (st.find? (fun r => r.1 == key)).map Prod.snd

/-- Modelled from the spec: the `get` operation of the abstract
StorageBackend contract of spec section 6 - the concrete backends (plyvel,
pymongo, the SQL cursors) are external collaborators whose sources are not
part of this repository. Per the contract, `get` returns the previously
stored blob or fails with `NotFoundError` when the key is absent. -/
def backendGet (st : Store) (key : String) : Except StoreError (List Nat) :=
  match lookupStore st key with
  | some blob => Except.ok blob
  | none => Except.error StoreError.notFoundError

/-- The spec's `EncodingError`. -/
inductive EncodingError where
  | invalidInput
deriving DecidableEq

/-- Inputs an encoder caller might pass: a genuine finite numeric vector, or
one of the ill-typed inputs the spec mentions. -/
inductive PyInput where
  | vector (v : Vec)
  | nonNumericObject
  | nonFiniteStream

/-- Modelled from the spec: `encode` lifted to arbitrary caller inputs. The
notebooks only ever call `adapt_array` on numpy arrays; the spec states that
encoding succeeds on every well-formed finite-length numeric vector and
fails with an `EncodingError` on non-finite-length or non-numeric input. -/
def adapt_value : PyInput → Except EncodingError (List Nat)
  | PyInput.vector v => Except.ok (adapt_array v)
  | PyInput.nonNumericObject => Except.error EncodingError.invalidInput
  | PyInput.nonFiniteStream => Except.error EncodingError.invalidInput

end WordEmbeddingStorage

namespace WordEmbeddingStorage

theorem length_bytesOfNat (k x : Nat) : (bytesOfNat k x).length = k := by
  induction k generalizing x with
  | zero => rfl
  | succ k ih => simp [bytesOfNat, ih]

theorem natOfBytes_bytesOfNat (k x : Nat) :
    natOfBytes (bytesOfNat k x) = x % 256 ^ k := by
  induction k generalizing x with
  | zero => simp [bytesOfNat, natOfBytes, Nat.mod_one]
  | succ k ih =>
    rw [pow_succ, mul_comm ((256 : Nat) ^ k) 256, Nat.mod_mul]
    simp [bytesOfNat, natOfBytes, ih]

theorem flatten_map_bytes_length (v : Vec) :
    ((v.map (bytesOfNat 8)).flatten).length = 8 * v.length := by
  induction v with
  | nil => rfl
  | cons x v ih =>
    simp only [List.map_cons, List.flatten_cons, List.length_append,
      length_bytesOfNat, ih, List.length_cons]
    omega

theorem readElems_flatten (v : Vec) :
    readElems v.length ((v.map (bytesOfNat 8)).flatten) =
      v.map (fun x => x % 2 ^ 64) := by
  induction v with
  | nil => rfl
  | cons x v ih =>
    have h8 : (bytesOfNat 8 x).length = 8 := length_bytesOfNat 8 x
    show readElems (v.length + 1)
        (bytesOfNat 8 x ++ (v.map (bytesOfNat 8)).flatten) = _
    rw [readElems, List.take_left' h8, List.drop_left' h8,
      natOfBytes_bytesOfNat, ih]
    norm_num

theorem adapt_array_length (v : Vec) :
    (adapt_array v).length = 16 + 8 * v.length := by
  unfold adapt_array
  simp only [List.length_append, length_bytesOfNat, flatten_map_bytes_length]
  rw [show NPY_MAGIC.length = 8 from rfl]

theorem adapt_take8 (v : Vec) : (adapt_array v).take 8 = NPY_MAGIC := by
  unfold adapt_array
  exact List.take_left' (show NPY_MAGIC.length = 8 from rfl)

theorem adapt_drop8 (v : Vec) :
    (adapt_array v).drop 8 =
      bytesOfNat 8 v.length ++ (v.map (bytesOfNat 8)).flatten := by
  unfold adapt_array
  exact List.drop_left' (show NPY_MAGIC.length = 8 from rfl)

theorem adapt_drop16 (v : Vec) :
    (adapt_array v).drop 16 = (v.map (bytesOfNat 8)).flatten := by
  have h : (adapt_array v).drop 16 = ((adapt_array v).drop 8).drop 8 := by
    rw [List.drop_drop]
  rw [h, adapt_drop8]
  exact List.drop_left' (length_bytesOfNat 8 v.length)

theorem adapt_count_field (v : Vec) :
    ((adapt_array v).drop 8).take 8 = bytesOfNat 8 v.length := by
  rw [adapt_drop8]
  exact List.take_left' (length_bytesOfNat 8 v.length)

theorem adapt_declared_count (v : Vec) (h : v.length < 2 ^ 64) :
    natOfBytes (((adapt_array v).drop 8).take 8) = v.length := by
  rw [adapt_count_field, natOfBytes_bytesOfNat]
  have h2 : (256 : Nat) ^ 8 = 2 ^ 64 := by norm_num
  rw [h2]
  exact Nat.mod_eq_of_lt h

/-- Decoding an encoded vector recovers every element reduced modulo 2^64;
for genuine 64-bit patterns this is the identity (see the round-trip
theorem below). -/
theorem convert_adapt (v : Vec) (h : v.length < 2 ^ 64) :
    convert_array (adapt_array v) = Except.ok (v.map (fun x => x % 2 ^ 64)) := by
  have hlen : 16 ≤ (adapt_array v).length := by
    rw [adapt_array_length]
    omega
  have hpay : ((adapt_array v).drop 16).length =
      8 * natOfBytes (((adapt_array v).drop 8).take 8) := by
    rw [adapt_drop16, adapt_declared_count v h, flatten_map_bytes_length]
  unfold convert_array
  rw [if_pos (adapt_take8 v), if_pos hlen, if_pos hpay,
    adapt_declared_count v h, adapt_drop16, readElems_flatten]

theorem map_mod_eq_self (v : Vec) (h : v.all (fun x => x < 2 ^ 64) = true) :
    v.map (fun x => x % 2 ^ 64) = v := by
  induction v with
  | nil => rfl
  | cons x v ih =>
    simp only [List.all_cons, Bool.and_eq_true, decide_eq_true_eq] at h
    rw [List.map_cons, Nat.mod_eq_of_lt h.1, ih h.2]

theorem rejects_of_not_wellFormed (blob : List Nat) (h : ¬ WellFormedNPY blob) :
    decodeRejects blob = true := by
  unfold decodeRejects convert_array
  by_cases h1 : blob.take 8 = NPY_MAGIC
  · by_cases h2 : 16 ≤ blob.length
    · by_cases h3 :
          (blob.drop 16).length = 8 * natOfBytes ((blob.drop 8).take 8)
      · exact absurd (show WellFormedNPY blob from ⟨h1, h2, h3⟩) h
      · rw [if_pos h1, if_pos h2, if_neg h3]
    · rw [if_pos h1, if_neg h2]
  · rw [if_neg h1]

theorem truncation_not_wellFormed (v : Vec) (k : Nat) (hv : v.length < 2 ^ 64)
    (hk : k < (adapt_array v).length) :
    ¬ WellFormedNPY ((adapt_array v).take k) := by
  intro hwf
  obtain ⟨h1, h2, h3⟩ := hwf
  have hlen : ((adapt_array v).take k).length = k := by
    rw [List.length_take]
    omega
  rw [hlen] at h2
  have hmeta : (((adapt_array v).take k).drop 8).take 8 =
      bytesOfNat 8 v.length := by
    rw [List.drop_take, List.take_take, show min 8 (k - 8) = 8 by omega,
      adapt_count_field]
  have hdecl : natOfBytes ((((adapt_array v).take k).drop 8).take 8) =
      v.length := by
    rw [hmeta, natOfBytes_bytesOfNat, show (256 : Nat) ^ 8 = 2 ^ 64 by norm_num]
    exact Nat.mod_eq_of_lt hv
  rw [List.length_drop, hlen, hdecl] at h3
  rw [adapt_array_length] at hk
  omega

theorem numpy_random_rand_length (draw : Nat → Nat → Nat) (idx dim : Nat) :
    (numpy_random_rand draw idx dim).length = dim := by
  simp [numpy_random_rand]

theorem embeddingsFrom_closed (draw : Nat → Nat → Nat) (n : Int) (dim : Nat) :
    ∀ (m idx : Nat), n.toNat - idx = m →
      embeddingsFrom draw n dim idx =
        (List.range' idx (n.toNat - idx)).map
          (fun i => (toString i, numpy_random_rand draw i dim)) := by
  intro m
  induction m with
  | zero =>
    intro idx h
    have h2 : ¬ ((idx : Int) < n) := by omega
    unfold embeddingsFrom
    rw [dif_neg h2, h]
    rfl
  | succ k ih =>
    intro idx h
    have h2 : (idx : Int) < n := by omega
    unfold embeddingsFrom
    rw [dif_pos h2, ih (idx + 1) (by omega),
      show n.toNat - idx = k + 1 from h,
      show n.toNat - (idx + 1) = k from by omega, List.range'_succ]
    rfl

theorem embeddings_closed (draw : Nat → Nat → Nat) (n : Int) (dim : Nat) :
    embeddings draw n dim =
      (List.range n.toNat).map
        (fun i => (toString i, numpy_random_rand draw i dim)) := by
  unfold embeddings
  rw [embeddingsFrom_closed draw n dim n.toNat 0 rfl, List.range_eq_range',
    Nat.sub_zero]

theorem embeddings_map_fst (draw : Nat → Nat → Nat) (n : Int) (dim : Nat) :
    (embeddings draw n dim).map Prod.fst =
      (List.range n.toNat).map (fun i => toString i) := by
  rw [embeddings_closed, List.map_map]
  rfl

theorem embeddings_length (draw : Nat → Nat → Nat) (n : Int) (dim : Nat) :
    (embeddings draw n dim).length = n.toNat := by
  rw [embeddings_closed]
  simp

theorem embeddings_vec_lengths (draw : Nat → Nat → Nat) (n : Int) (dim : Nat) :
    (embeddings draw n dim).all (fun p => p.2.length == dim) = true := by
  rw [embeddings_closed]
  simp [List.all_eq_true, numpy_random_rand]

theorem writePhase_map_fst (recs : List (String × Vec)) :
    ∀ st : Store, (writePhase recs st).map Prod.fst =
      st.map Prod.fst ++ recs.map Prod.fst := by
  induction recs with
  | nil =>
    intro st
    simp [writePhase]
  | cons r rs ih =>
    intro st
    show (writePhase rs (putRecord st r.1 (adapt_array r.2))).map Prod.fst = _
    rw [ih]
    simp [putRecord]

theorem sweepRun_eq_last (draw : Nat → Nat → Nat) (dim : Nat) :
    ∀ (counts : List Nat) (clast : Nat) (st : Store),
      counts.getLast? = some clast →
      sweepRun draw dim counts st =
        writePhase (embeddings draw (clast : Int) dim) [] := by
  intro counts
  induction counts with
  | nil =>
    intro clast st h
    simp [List.getLast?] at h
  | cons c rest ih =>
    intro clast st h
    cases rest with
    | nil =>
      rw [List.getLast?_singleton] at h
      cases h
      rfl
    | cons c2 rest2 =>
      rw [List.getLast?_cons_cons] at h
      exact ih clast (sweepIteration draw dim c st) h

/-- Claim C1: for every finite-length vector v, including the zero-length
vector, decoding the encoding of v (`convert_array (adapt_array v)`) yields
exactly v, in length and in every element. The hypotheses say v is a genuine
float64 array: each element is one 64-bit word and the length is
representable in the 64-bit count field. -/
theorem claimC1_roundtrip (v : Vec) (h1 : v.length < 2 ^ 64)
    (h2 : v.all (fun x => x < 2 ^ 64) = true) :
    convert_array (adapt_array v) = Except.ok v := by
  rw [convert_adapt v h1, map_mod_eq_self v h2]

theorem claimC1_witness :
    (([] : Vec).length < 2 ^ 64 ∧
      convert_array (adapt_array []) = Except.ok []) ∧
    (([3, 2 ^ 63] : Vec).length < 2 ^ 64 ∧
      ([3, 2 ^ 63] : Vec).all (fun x => x < 2 ^ 64) = true ∧
      convert_array (adapt_array [3, 2 ^ 63]) = Except.ok [3, 2 ^ 63]) :=
  ⟨⟨by decide, claimC1_roundtrip [] (by decide) (by decide)⟩,
   ⟨by decide, by decide, claimC1_roundtrip [3, 2 ^ 63] (by decide) (by decide)⟩⟩

/-- Claim C2: encoding is deterministic - two applications of `adapt_array`
to the same vector produce byte-identical blobs. -/
theorem claimC2_deterministic (v w : Vec) (h : v = w) :
    adapt_array v = adapt_array w := by
  rw [h]

theorem claimC2_witness : adapt_array [7] = adapt_array [7] :=
  claimC2_deterministic [7] [7] rfl

/-- Claim C3: `convert_array` fails with a `DecodingError` on every byte
sequence that is malformed (not structurally well-formed: broken magic,
missing count field, or a declared element count inconsistent with the
payload size), and in particular on every strict truncation of a valid
encoding. -/
theorem claimC3_rejects_malformed :
    (∀ blob : List Nat, ¬ WellFormedNPY blob → decodeRejects blob = true) ∧
    (∀ (v : Vec) (k : Nat), v.length < 2 ^ 64 → k < (adapt_array v).length →
      decodeRejects ((adapt_array v).take k) = true) :=
  ⟨rejects_of_not_wellFormed,
   fun v k hv hk =>
     rejects_of_not_wellFormed _ (truncation_not_wellFormed v k hv hk)⟩

theorem claimC3_witness :
    (¬ WellFormedNPY [0, 1, 2] ∧ decodeRejects [0, 1, 2] = true) ∧
    (([1] : Vec).length < 2 ^ 64 ∧ 5 < (adapt_array [1]).length ∧
      decodeRejects ((adapt_array [1]).take 5) = true) :=
  ⟨⟨by decide, claimC3_rejects_malformed.1 [0, 1, 2] (by decide)⟩,
   ⟨by decide, by decide,
     claimC3_rejects_malformed.2 [1] 5 (by decide) (by decide)⟩⟩

/-- Claim C4: for every count n and dimensionality d, `embeddings n d`
yields exactly n records whose keys are the decimal strings of 0..n-1 in
increasing order, each paired with a vector of exactly d elements; in
particular at n = 5, d = 3 it yields exactly the keys "0".."4" with vectors
of length 3. -/
theorem claimC4_generator_structure (draw : Nat → Nat → Nat) (n dim : Nat) :
    (embeddings draw (n : Int) dim).map Prod.fst =
        (List.range n).map (fun i => toString i) ∧
    (embeddings draw (n : Int) dim).length = n ∧
    (embeddings draw (n : Int) dim).all (fun p => p.2.length == dim) = true ∧
    (embeddings draw (5 : Int) 3).map Prod.fst = ["0", "1", "2", "3", "4"] ∧
    (embeddings draw (5 : Int) 3).length = 5 ∧
    (embeddings draw (5 : Int) 3).all (fun p => p.2.length == 3) = true := by
  refine ⟨?_, ?_, embeddings_vec_lengths draw (n : Int) dim, ?_, ?_,
    embeddings_vec_lengths draw (5 : Int) 3⟩
  · rw [embeddings_map_fst, Int.toNat_natCast]
  · rw [embeddings_length, Int.toNat_natCast]
  · rw [embeddings_map_fst]
    decide
  · rw [embeddings_length]
    decide

/-- Claim C5, evaluated at the failing input: at sweep size c = 100 the
in-memory SQLite read loop issues 1000 gets (keys "0".."999", the
generator's default length) although only 100 keys ("0".."99") were written,
while the LevelDB, MongoDB and MySQL sweeps read back exactly the written
keys in order. This refutes the claim that every backend variant reads
exactly the `size` written keys. -/
theorem claimC5_sqliteMemory_read_mismatch :
    (sqliteMemorySweepReadKeys drawZero 100).length = 1000 ∧
    (sweepWriteKeys drawZero 100).length = 100 ∧
    sqliteMemorySweepReadKeys drawZero 100 ≠ sweepWriteKeys drawZero 100 ∧
    leveldbSweepReadKeys drawZero 100 = sweepWriteKeys drawZero 100 ∧
    mongoSweepReadKeys drawZero 100 = sweepWriteKeys drawZero 100 ∧
    mysqlSweepReadKeys drawZero 100 = sweepWriteKeys drawZero 100 := by
  have h1 : (sqliteMemorySweepReadKeys drawZero 100).length = 1000 := by
    unfold sqliteMemorySweepReadKeys
    rw [List.length_map, embeddings_length]
    rfl
  have h2 : (sweepWriteKeys drawZero 100).length = 100 := by
    unfold sweepWriteKeys
    rw [List.length_map, embeddings_length]
    rfl
  refine ⟨h1, h2, fun he => ?_, rfl, rfl, rfl⟩
  rw [he] at h1
  omega

/-- Claim C6 counterexample: a decoded vector whose element count differs
from the generation dimensionality 300 passes the LevelDB sweep read-phase
assertion, because that assertion checks only `type(emb) is numpy.ndarray`
and never the element count; the run is not aborted. -/
theorem claimC6_counterexample :
    convert_array (adapt_array [0, 0]) = Except.ok [0, 0] ∧
    ([0, 0] : Vec).length ≠ 300 ∧
    leveldbReadStep (adapt_array [0, 0]) = true := by
  refine ⟨?_, by decide, ?_⟩
  · rw [convert_adapt [0, 0] (by decide)]
    rfl
  · unfold leveldbReadStep
    rw [convert_adapt [0, 0] (by decide)]
    rfl

/-- Claim C6 amended: in the LevelDB and MongoDB sweep read loops the only
check on a decoded result is the assertion `type(emb) is numpy.ndarray`,
which every successfully decoded vector passes regardless of element count,
while a blob that fails to decode aborts the iteration; the MySQL sweep
decodes with no assertion at all, and the PostgreSQL sweep fetches rows
without decoding or checking anything. No sweep read loop checks the
element count. -/
theorem claimC6_amended :
    (∀ v : Vec, v.length < 2 ^ 64 → leveldbReadStep (adapt_array v) = true) ∧
    (∀ (blob : List Nat) (e : DecodingError),
      convert_array blob = Except.error e → leveldbReadStep blob = false) ∧
    (∀ v : Vec, v.length < 2 ^ 64 → mysqlReadStep (adapt_array v) = true) ∧
    (∀ row : List Nat, postgresSweepReadStep row = true) := by
  refine ⟨?_, ?_, ?_, fun _ => rfl⟩
  · intro v h
    unfold leveldbReadStep
    rw [convert_adapt v h]
    rfl
  · intro blob e h
    unfold leveldbReadStep
    rw [h]
  · intro v h
    unfold mysqlReadStep
    rw [convert_adapt v h]

theorem claimC6_amended_witness :
    (([9] : Vec).length < 2 ^ 64 ∧ leveldbReadStep (adapt_array [9]) = true) ∧
    (convert_array [7] = Except.error DecodingError.badMagic ∧
      leveldbReadStep [7] = false) ∧
    (([9] : Vec).length < 2 ^ 64 ∧ mysqlReadStep (adapt_array [9]) = true) ∧
    postgresSweepReadStep [1, 2] = true :=
  ⟨⟨by decide, claimC6_amended.1 [9] (by decide)⟩,
   ⟨rfl, claimC6_amended.2.1 [7] DecodingError.badMagic rfl⟩,
   ⟨by decide, claimC6_amended.2.2.1 [9] (by decide)⟩,
   claimC6_amended.2.2.2 [1, 2]⟩

/-- Claim C7: in every sweep iteration the backend is reset to empty before
any put of the writing phase (the iteration acts on the reset state, and
reset always yields the empty store), so every writing phase starts from
zero records; consequently after the whole sweep the backend holds exactly
the records of the last size - their keys are the decimal strings of
0..last-1 in order. -/
theorem claimC7_reset_and_final (draw : Nat → Nat → Nat) (dim : Nat)
    (counts : List Nat) (clast : Nat) (st : Store)
    (h : counts.getLast? = some clast) :
    (∀ s : Store, resetStore s = []) ∧
    (∀ (c : Nat) (s : Store),
      sweepIteration draw dim c s =
        writePhase (embeddings draw (c : Int) dim) []) ∧
    sweepRun draw dim counts st =
      writePhase (embeddings draw (clast : Int) dim) [] ∧
    (sweepRun draw dim counts st).map Prod.fst =
      (List.range clast).map (fun i => toString i) := by
  refine ⟨fun _ => rfl, fun _ _ => rfl,
    sweepRun_eq_last draw dim counts clast st h, ?_⟩
  rw [sweepRun_eq_last draw dim counts clast st h, writePhase_map_fst,
    embeddings_map_fst, Int.toNat_natCast]
  rfl

theorem claimC7_witness :
    ([2, 3] : List Nat).getLast? = some 3 ∧
    sweepRun drawZero 4 [2, 3] [] =
      writePhase (embeddings drawZero (3 : Int) 4) [] ∧
    (sweepRun drawZero 4 [2, 3] []).map Prod.fst =
      (List.range 3).map (fun i => toString i) :=
  ⟨rfl, (claimC7_reset_and_final drawZero 4 [2, 3] 3 [] rfl).2.2.1,
   (claimC7_reset_and_final drawZero 4 [2, 3] 3 [] rfl).2.2.2⟩

/-- Claim C8: encoding succeeds (produces a blob, with no error) on every
finite-length numeric vector, and fails with an `EncodingError` on every
input that is not such a vector. -/
theorem claimC8_encode_totality :
    (∀ v : Vec, adapt_value (PyInput.vector v) = Except.ok (adapt_array v)) ∧
    (∀ i : PyInput, (∀ v : Vec, i ≠ PyInput.vector v) →
      adapt_value i = Except.error EncodingError.invalidInput) := by
  refine ⟨fun v => rfl, ?_⟩
  intro i h
  cases i with
  | vector v => exact absurd rfl (h v)
  | nonNumericObject => rfl
  | nonFiniteStream => rfl

theorem claimC8_witness :
    adapt_value (PyInput.vector [5]) = Except.ok (adapt_array [5]) ∧
    adapt_value PyInput.nonNumericObject =
      Except.error EncodingError.invalidInput :=
  ⟨claimC8_encode_totality.1 [5],
   claimC8_encode_totality.2 PyInput.nonNumericObject
     (fun _ h => PyInput.noConfusion h)⟩

/-- Claim C9: a get on a key that is absent from the backend store fails
with `NotFoundError` rather than returning a value; in particular a get on
any key right after `reset` fails with `NotFoundError`. -/
theorem claimC9_get_absent :
    (∀ (st : Store) (key : String), lookupStore st key = none →
      backendGet st key = Except.error StoreError.notFoundError) ∧
    (∀ (st : Store) (key : String),
      backendGet (resetStore st) key =
        Except.error StoreError.notFoundError) := by
  constructor
  · intro st key h
    unfold backendGet
    rw [h]
  · intro st key
    rfl

theorem claimC9_witness :
    lookupStore [("0", [7])] "5" = none ∧
    backendGet [("0", [7])] "5" = Except.error StoreError.notFoundError ∧
    backendGet (resetStore [("0", [7])]) "0" =
      Except.error StoreError.notFoundError :=
  ⟨rfl, claimC9_get_absent.1 [("0", [7])] "5" rfl,
   claimC9_get_absent.2 [("0", [7])] "0"⟩

/-- Claim C10: for every count n ≤ 0 the generator yields the empty
sequence, and the (empty) result does not depend on the random oracle - no
random vector is sampled. -/
theorem claimC10_empty (draw draw2 : Nat → Nat → Nat) (n : Int) (dim : Nat)
    (h : n ≤ 0) :
    embeddings draw n dim = [] ∧
    embeddings draw n dim = embeddings draw2 n dim := by
  have hz : n.toNat = 0 := by omega
  constructor
  · rw [embeddings_closed, hz]
    rfl
  · rw [embeddings_closed, embeddings_closed, hz]
    rfl

theorem claimC10_witness :
    ((-2 : Int) ≤ 0 ∧ embeddings drawZero (-2) 300 = []) ∧
    ((0 : Int) ≤ 0 ∧ embeddings drawZero 0 300 = embeddings drawOne 0 300) :=
  ⟨⟨by decide, (claimC10_empty drawZero drawOne (-2) 300 (by decide)).1⟩,
   ⟨by decide, (claimC10_empty drawZero drawOne 0 300 (by decide)).2⟩⟩

end WordEmbeddingStorage
